import Mathlib

/-!
Verification of the Tab-Wizard server core against its specification.

The development shallowly embeds the Python sources:

* `src/core/connection_manager.py` — the per-profile tab state tracker
  (`handle_new_tab_event`, `handle_tab_info_changed_event`,
  `handle_tab_closed_event`, `broadcast_event_to_plugins`);
* `src/server/websocket_server.py` — the broadcaster
  (`broadcast_to_plugins`), the subscriber handler (`websocket_handler`)
  and the snapshot path (`handle_first_connection`);
* `src/server/wizard_server.py` — the one-shot TCP channel
  (`handle_client_connection`);
* `src/core/command_handler.py` — `handle_command`;
* `src/core/wizard_core.py` — `get_debug_port`, `normalize_url`,
  `get_priority`, `get_tabs`, `focus_or_open_tab`.

Python sets of tab ids become duplicate-free `List String` values with
`List.insert` / `List.erase` for `set.add` / `set.remove`; dict lookups
keyed by the two fixed profile names become a two-constructor `ProfileId`.
Title cleaning (`clean_tab_title`) and favicon retrieval
(`get_favicon_string_base64`) are external collaborators per the spec and
are passed as opaque function parameters; no verified property depends on
their output values. JSON (de)serialisation is modelled by the decoded
shape of the message. I/O effects (HTTP calls, window focus, process
launch) are reified as values in action lists.
-/

namespace TabWizard

/-- Identifier of one of the two fixed browser profiles; the Python code
keys its `page_targets` dict and its debug ports by the strings
"personal" and "work". -/
inductive ProfileId where
  | personal
  | work
deriving DecidableEq

/-- Wire name of a profile, as stored in broadcast payloads. -/
def ProfileId.name : ProfileId → String
  | .personal => "personal"
  | .work => "work"

/-- Decoded `params.targetInfo` of a raw browser event, after the
`.get(..., "unknown")` defaulting done in `connection_manager.py`
(a missing title or url arrives here as the string "unknown"). The
`type` field carries the target kind ("page" or otherwise). -/
structure TargetInfo where
  targetId : String
  title : String
  url : String
  type : String
deriving DecidableEq

/-- Entry of the `tabs` list of an outbound wire message, shape
`(tabId, title, favicon)` as built by `broadcast_event_to_plugins` and
`handle_first_connection`. -/
structure TabEntry where
  tabId : String
  title : String
  favicon : String
deriving DecidableEq

/-- Outbound wire message `(type, tabs, profile)`; `type` is one of
"new_tab", "tab_info_change", "tab_closed", "current_tabs",
"no_tabs_open". -/
structure WireMessage where
  msgType : String
  tabs : List TabEntry
  profile : String
deriving DecidableEq

/-- State of `ConnectionManager.page_targets`: one tracked-id set per
profile, modelled as duplicate-free lists. -/
structure CMState where
  personalTargets : List String
  workTargets : List String
deriving DecidableEq

/-- Lookup `self.page_targets[profile]`. -/
def CMState.tracked (st : CMState) : ProfileId → List String
  | .personal => st.personalTargets
  | .work => st.workTargets

/-- Effect of `self.page_targets[profile].add(target_id)` — a Python
set add, inserting only when absent. -/
def CMState.addTracked (st : CMState) (p : ProfileId) (tid : String) : CMState :=
  match p with
  | .personal => { st with personalTargets := st.personalTargets.insert tid }
  | .work => { st with workTargets := st.workTargets.insert tid }

/-- Effect of `self.page_targets[profile].remove(target_id)`. -/
def CMState.removeTracked (st : CMState) (p : ProfileId) (tid : String) : CMState :=
  match p with
  | .personal => { st with personalTargets := st.personalTargets.erase tid }
  | .work => { st with workTargets := st.workTargets.erase tid }

/-- Empty tracker state, as set up in `ConnectionManager.__init__`. -/
def CMState.empty : CMState := ⟨[], []⟩

/-- Payload built by `broadcast_event_to_plugins`: one tab entry inside
the `tabs` list. -/
def broadcast_event_to_plugins (msgType tabId title favicon profile : String) :
    WireMessage :=
  ⟨msgType, [⟨tabId, title, favicon⟩], profile⟩

/-- Embedding of `ConnectionManager.handle_new_tab_event`. `cleanTitle`
and `getFavicon` stand for the external collaborators `clean_tab_title`
and `get_favicon_string_base64`. Mirrors the source exactly: the guard is
`type == "page" and target_id not in page_targets[profile]`; inside the
guard the id is added to the set first, and only then the empty /
"unknown" url check returns without emitting. Returns the new state and
the list of messages passed to the broadcast callback. -/
def handle_new_tab_event (cleanTitle : String → String → String)
    (getFavicon : String → String) (info : TargetInfo) (profile : ProfileId)
    (st : CMState) : CMState × List WireMessage :=
  let cleaned := cleanTitle info.title info.url
  if info.type == "page" && !((st.tracked profile).contains info.targetId) then
    let st' := st.addTracked profile info.targetId
    if info.url == "" || info.url == "unknown" then
      (st', [])
    else
      (st', [broadcast_event_to_plugins "new_tab" info.targetId cleaned
        (getFavicon info.url) profile.name])
  else
    (st, [])

/-- Embedding of `ConnectionManager.handle_tab_info_changed_event`.
Guard: `type == "page" and url != "edge://downloads/hub"`. A tracked id
with an empty / "unknown" url returns without emitting; a tracked id with
a resolved url emits "tab_info_change"; an untracked id is added to the
set and emits "new_tab" (with no url check on this branch, as in the
source). -/
def handle_tab_info_changed_event (cleanTitle : String → String → String)
    (getFavicon : String → String) (info : TargetInfo) (profile : ProfileId)
    (st : CMState) : CMState × List WireMessage :=
  let cleaned := cleanTitle info.title info.url
  if info.type == "page" && info.url != "edge://downloads/hub" then
    if (st.tracked profile).contains info.targetId then
      if info.url == "" || info.url == "unknown" then
        (st, [])
      else
        (st, [broadcast_event_to_plugins "tab_info_change" info.targetId cleaned
          (getFavicon info.url) profile.name])
    else
      (st.addTracked profile info.targetId,
        [broadcast_event_to_plugins "new_tab" info.targetId cleaned
          (getFavicon info.url) profile.name])
  else
    (st, [])

/-- Embedding of `ConnectionManager.handle_tab_closed_event`. The raw
event's `params.targetId` may be absent (`none`); the source guard is
`if target_id and target_id in page_targets[profile]`, so an absent id,
an empty-string id (falsy in Python) and an untracked id all do
nothing. -/
def handle_tab_closed_event (targetId : Option String) (profile : ProfileId)
    (st : CMState) : CMState × List WireMessage :=
  match targetId with
  | none => (st, [])
  | some tid =>
    if tid != "" && (st.tracked profile).contains tid then
      (st.removeTracked profile tid,
        [broadcast_event_to_plugins "tab_closed" tid "" "" profile.name])
    else
      (st, [])

/-- Decoded raw browser event, after the `event.get("method")` dispatch
of `ConnectionManager.handle_event`; `other` covers every method string
the `match` statement does not name. -/
inductive RawEvent where
  | targetCreated (info : TargetInfo)
  | targetDestroyed (targetId : Option String)
  | targetInfoChanged (info : TargetInfo)
  | other
deriving DecidableEq

/-- Embedding of `ConnectionManager.handle_event`: dispatch on the
method tag, unknown tags fall through with no state change and no
emission. -/
def handle_event (cleanTitle : String → String → String)
    (getFavicon : String → String) (ev : RawEvent) (profile : ProfileId)
    (st : CMState) : CMState × List WireMessage :=
  match ev with
  | .targetCreated info => handle_new_tab_event cleanTitle getFavicon info profile st
  | .targetDestroyed tid => handle_tab_closed_event tid profile st
  | .targetInfoChanged info =>
    handle_tab_info_changed_event cleanTitle getFavicon info profile st
  | .other => (st, [])

/-- Fold of `handle_event` over a sequence of raw events for one profile,
collecting every emitted wire message in order. -/
def run_events (cleanTitle : String → String → String)
    (getFavicon : String → String) (profile : ProfileId) :
    List RawEvent → CMState → CMState × List WireMessage
  | [], st => (st, [])
  | ev :: rest, st =>
    let r := handle_event cleanTitle getFavicon ev profile st
    let r' := run_events cleanTitle getFavicon profile rest r.1
    (r'.1, r.2 ++ r'.2)

/-- Handle of one connected plugin websocket; the broadcaster only ever
compares and removes handles, so an opaque numeric handle suffices. -/
abbrev Subscriber := Nat

/-- Record of one `ws.send(message)` call issued by the broadcaster:
which subscriber it targeted and whether the transport delivered it. -/
structure SendAttempt where
  sub : Subscriber
  delivered : Bool
deriving DecidableEq

/-- Observable outcome of one call to `broadcast_to_plugins`: the
message serialised by `json.dumps` (absent when the guard
`if connected_websockets:` falls through) and the list of send calls
issued. -/
structure BroadcastResult where
  builtMessage : Option WireMessage
  attempts : List SendAttempt
deriving DecidableEq

/-- Embedding of `broadcast_to_plugins` in `websocket_server.py`. Inside
the non-empty guard the message is built once and `asyncio.gather` issues
exactly one send per currently connected subscriber; a failing send does
not cancel the already-started sends to the others and is never repeated.
`sendFails` tells which subscribers' transports fail. The function does
not touch the subscriber set itself. -/
def broadcast_to_plugins (subs : List Subscriber) (sendFails : Subscriber → Bool)
    (event : WireMessage) : BroadcastResult :=
  if subs.isEmpty then ⟨none, []⟩
  else ⟨some event, subs.map (fun s => ⟨s, !sendFails s⟩)⟩

/-- Cleanup performed by `websocket_handler`: each subscriber whose
transport failed has its handler's read loop raise `ConnectionClosed`,
and that handler's `finally` clause removes exactly its own websocket
from `connected_websockets`. -/
def remove_failed_subscribers (subs : List Subscriber)
    (sendFails : Subscriber → Bool) : List Subscriber :=
  subs.filter (fun s => !sendFails s)

/-- Effect of one broadcast of one domain event together with the failed
subscribers' handler cleanup: the send outcomes and the live subscriber
set afterwards. -/
def broadcast_round (subs : List Subscriber) (sendFails : Subscriber → Bool)
    (event : WireMessage) : BroadcastResult × List Subscriber :=
  (broadcast_to_plugins subs sendFails event, remove_failed_subscribers subs sendFails)

/-- Combined state visible to a Destroyed event: both profiles' tracked
sets and the live subscriber set. -/
structure SystemState where
  cm : CMState
  subscribers : List Subscriber
deriving DecidableEq

/-- System-level effect of one `Target.targetDestroyed` event: the
tracker handles it, and each emitted message is broadcast (which is the
only way the subscriber set can change, through failed sends unwinding
their handlers). -/
def system_handle_tab_closed (sendFails : Subscriber → Bool)
    (targetId : Option String) (profile : ProfileId) (sys : SystemState) :
    SystemState × List WireMessage :=
  let r := handle_tab_closed_event targetId profile sys.cm
  let subs := r.2.foldl (fun s _ => remove_failed_subscribers s sendFails) sys.subscribers
  (⟨r.1, subs⟩, r.2)

/-- Characters of a string before the first '?', modelling Python's
`url.split("?")[0]`. -/
def before_query : List Char → List Char
  | [] => []
  | c :: t => if c == '?' then [] else c :: before_query t

/-- Lowercased characters, modelling Python's `str.lower()` on the ASCII
urls and domains this program compares. -/
def lower_chars (l : List Char) : List Char := l.map Char.toLower

/-- Embedding of `normalize_url` in `wizard_core.py`:
`url.split("?")[0].rstrip("/").lower()` — text before the first "?",
trailing '/' characters removed, lowercased. -/
def normalize_url (url : String) : String :=
  String.mk (lower_chars (((before_query url.data).reverse.dropWhile
    (fun c => c == '/')).reverse))

/-- Boolean test that `hay` starts with `needle`, character by
character. -/
def starts_with_chars : List Char → List Char → Bool
  | _, [] => true
  | [], _ :: _ => false
  | a :: as, b :: bs => a == b && starts_with_chars as bs

/-- Boolean test that `needle` occurs contiguously inside `hay`. -/
def chars_contain (needle : List Char) : List Char → Bool
  | [] => needle.isEmpty
  | a :: t => starts_with_chars (a :: t) needle || chars_contain needle t

/-- Model of Python's substring operator `needle in hay`. -/
def str_in (needle hay : String) : Bool := chars_contain needle.data hay.data

/-- Characters after the first "//", when present. -/
def after_double_slash : List Char → Option (List Char)
  | [] => none
  | c :: t =>
    match t with
    | d :: t' => if c == '/' && d == '/' then some t' else after_double_slash t
    | [] => none

/-- Model of `urlparse(url).netloc` from the Python standard library, for
the http(s)-style urls this program handles: the text following the
first "//" up to the next '/', '?' or '#'; empty when the url contains
no "//". -/
def netloc (url : String) : String :=
  match after_double_slash url.data with
  | none => ""
  | some rest =>
    String.mk (rest.takeWhile (fun c => !(c == '/' || c == '?' || c == '#')))

/-- Boolean test that `l` ends with `suffix`. -/
def ends_with_chars (l suffix : List Char) : Bool :=
  starts_with_chars l.reverse suffix.reverse

/-- The configured `priority_domains` list of `wizard_core.py`, in list
order. -/
def priority_domains : List String := ["youtube.com", "chatgpt.com"]

/-- Position of the first priority domain that `domain` equals or is a
subdomain of (`domain == pd or domain.endswith("." + pd)`). -/
def priority_index : List String → Nat → String → Option Nat
  | [], _, _ => none
  | d :: ds, i, domain =>
    if domain == d || ends_with_chars domain.data ("." ++ d).data then some i
    else priority_index ds (i + 1) domain

/-- Decoded entry of the browser's `/json` target listing,
`(id, title, url, type)` as consumed by `get_tabs` and
`handle_first_connection`; a missing url decodes to "". -/
structure BrowserTarget where
  id : String
  title : String
  url : String
  type : String
deriving DecidableEq

/-- Embedding of `get_priority` in `wizard_core.py`: the sort key of one
tab. A priority-domain tab gets `(0, list position, domain)`; every
other tab gets a key that compares after all of those, ordered by domain
name (the Python 2-tuple `(1, domain)` is padded to `(1, 0, domain)`,
which induces the same lexicographic order). -/
def get_priority (tab : BrowserTarget) : Nat × Nat × String :=
  let domain := String.mk (lower_chars (netloc tab.url).data)
  match priority_index priority_domains 0 domain with
  | some i => (0, i, domain)
  | none => (1, 0, domain)

/-- Lexicographic ≤ on character lists by code point, the order Python
uses to compare the domain strings inside sort keys. -/
def chars_le (as bs : List Char) : Bool := decide (as ≤ bs)

/-- Lexicographic ≤ on sort keys, as Python's tuple comparison orders
the results of `get_priority`. -/
def key_le (a b : Nat × Nat × String) : Bool :=
  if a.1 = b.1 then
    if a.2.1 = b.2.1 then chars_le a.2.2.data b.2.2.data
    else decide (a.2.1 < b.2.1)
  else decide (a.1 < b.1)

/-- Tab comparison used by `tabs.sort(key=get_priority)`. -/
def tab_le (a b : BrowserTarget) : Bool := key_le (get_priority a) (get_priority b)

/-- Embedding of `get_tabs` in `wizard_core.py`. Its input is the
decoded `/json` listing, `none` when the HTTP GET raises
`ConnectionError` (browser unreachable); it keeps only "page"-kind
targets and sorts them by `get_priority` (Python's `list.sort` is
stable, as is `List.mergeSort`). -/
def get_tabs (rawTargets : Option (List BrowserTarget)) :
    Option (List BrowserTarget) :=
  match rawTargets with
  | none => none
  | some ts => some ((ts.filter (fun t => t.type == "page")).mergeSort tab_le)

/-- Page-kind targets in priority order: the listing `get_tabs` produces
for a reachable browser. -/
def sorted_page_tabs (raw : List BrowserTarget) : List BrowserTarget :=
  (raw.filter (fun t => t.type == "page")).mergeSort tab_le

/-- Test applied to each listed tab by the search loop of
`focus_or_open_tab`: the normalized target url occurs inside the
normalized tab url. -/
def tab_matches (desired : String) (tab : BrowserTarget) : Bool :=
  str_in (normalize_url desired) (normalize_url tab.url)

/-- Externally visible browser-side effect issued by the one-shot
command path, in order. -/
inductive BrowserAction where
  | launchEdge (url profile : String)
  | focusWindow (profile : String)
  | activateTab (tabId : String)
  | openNewTab (url profile : String)
deriving DecidableEq

/-- Search-and-act body of `focus_or_open_tab` once a tab listing is
available: the loop takes the first listed tab whose normalized url
contains the normalized target, focuses the window and activates it;
with no match it opens the url in a new tab. -/
def focus_or_open_core (desired profile : String) (tabs : List BrowserTarget) :
    List BrowserAction :=
  match tabs.find? (tab_matches desired) with
  | some t => [BrowserAction.focusWindow profile, BrowserAction.activateTab t.id]
  | none => [BrowserAction.openNewTab desired profile]

/-- Embedding of `focus_or_open_tab` in `wizard_core.py`. `rawTargets`
is the decoded first listing attempt (`none` when unreachable),
`rawAfterLaunch` the re-listing after `launch_edge_on_selected_tab`;
when both fail the function logs and returns with no further action. -/
def focus_or_open_tab (desired profile : String)
    (rawTargets rawAfterLaunch : Option (List BrowserTarget)) :
    List BrowserAction :=
  match get_tabs rawTargets with
  | some tabs => focus_or_open_core desired profile tabs
  | none =>
    BrowserAction.launchEdge desired profile ::
      (match get_tabs rawAfterLaunch with
       | some tabs => focus_or_open_core desired profile tabs
       | none => [])

/-- Embedding of `get_debug_port` in `wizard_core.py` with the two
environment-configured ports as parameters; the profile argument is the
decoded `profile` payload field, `none` when the field was absent. The
source is `DEBUG_PORT_PERSONAL if profile == "personal" else
DEBUG_PORT_WORK`, and in Python `None == "personal"` is false. -/
def get_debug_port (personalPort workPort : Nat) (profile : Option String) :
    Nat :=
  if profile == some "personal" then personalPort else workPort

/-- Tab entries built by the loop of `handle_first_connection` in
`websocket_server.py`: non-"page" targets are skipped, each kept target
contributes `(tabId, cleaned title, favicon)`. -/
def snapshot_entries (ct : String → String → String) (gf : String → String)
    (tabs : List BrowserTarget) : List TabEntry :=
  (tabs.filter (fun t => t.type == "page")).map
    (fun t => ⟨t.id, ct t.title t.url, gf t.url⟩)

/-- Embedding of `handle_first_connection` in `websocket_server.py`:
query the profile's live listing through `get_tabs`; a `None` listing
(browser unreachable) yields a `no_tabs_open` message with an empty tabs
list, otherwise a `current_tabs` message with one entry per page-kind
tab. -/
def handle_first_connection (ct : String → String → String)
    (gf : String → String) (profile : String)
    (rawTargets : Option (List BrowserTarget)) : WireMessage :=
  match get_tabs rawTargets with
  | none => ⟨"no_tabs_open", [], profile⟩
  | some tabs => ⟨"current_tabs", snapshot_entries ct gf tabs, profile⟩

/-- Messages sent to one subscriber on a `first_connection` handshake:
the `websocket_handler` loop runs `for profile in ["personal", "work"]`
and sends one snapshot per profile. `targetsOf` gives each profile's
decoded live listing (`none` when that browser is unreachable). -/
def first_connection_responses (ct : String → String → String)
    (gf : String → String)
    (targetsOf : String → Option (List BrowserTarget)) : List WireMessage :=
  ["personal", "work"].map (fun p => handle_first_connection ct gf p (targetsOf p))

/-- Outcome of the JSON decode performed by `handle_command` in
`command_handler.py` on the received one-shot payload. -/
inductive ParsedJson where
  | malformed
  | payload (url : Option String) (profile : Option String)
deriving DecidableEq

/-- Observable outcome of one `handle_command` call: whether an
exception escaped it, and the `focus_or_open_tab(url, profile)` call it
issued, if any. -/
structure CommandOutcome where
  raised : Bool
  call : Option (String × String)
deriving DecidableEq

/-- Embedding of `handle_command` in `command_handler.py`. Malformed
JSON is caught (`JSONDecodeError`), logged and dropped. Otherwise
`url = payload.get("url")` and `profile = payload.get("profile",
"personal")`; the validation `url.startswith("http://") or
url.startswith("https://")` raises `AttributeError` when `url` is
`None`, which propagates to the caller; a non-matching url is logged as
invalid and dropped; a matching one is passed to `focus_or_open_tab`. -/
def handle_command : ParsedJson → CommandOutcome
  | .malformed => ⟨false, none⟩
  | .payload url profile =>
    let prof := profile.getD "personal"
    match url with
    | none => ⟨true, none⟩
    | some u =>
      if starts_with_chars u.data "http://".data
          || starts_with_chars u.data "https://".data then
        ⟨false, some (u, prof)⟩
      else
        ⟨false, none⟩

/-- Observable outcome of one TCP connection on the one-shot channel:
whether the acknowledgment bytes `b"OK"` were sent, and whether the
connection was closed. -/
structure ConnectionOutcome where
  ackSent : Bool
  closed : Bool
deriving DecidableEq

/-- Embedding of `handle_client_connection` in `wizard_server.py`. The
argument is the decoded, stripped received data: `none` models empty
data (falsy, so `handle_command` is skipped). `conn.sendall(b"OK")`
follows `handle_command(data)` inside the same `try`, so it runs only
when `handle_command` returns without raising; the `except` clause only
logs, and the `finally` clause always closes the connection. -/
def handle_client_connection (data : Option ParsedJson) : ConnectionOutcome :=
  match data with
  | none => ⟨true, true⟩
  | some d => if (handle_command d).raised then ⟨false, true⟩ else ⟨true, true⟩

/-- Identity title cleaner used to instantiate concrete runs; stands in
for the external `clean_tab_title` collaborator. -/
def idClean : String → String → String := fun t _ => t

/-- Constant favicon lookup used to instantiate concrete runs; stands in
for the external `get_favicon_string_base64` collaborator. -/
def noFavicon : String → String := fun _ => ""

end TabWizard

namespace TabWizard

theorem mem_tracked_addTracked_self (st : CMState) (p : ProfileId) (tid : String) :
    tid ∈ (st.addTracked p tid).tracked p := by
  cases p <;> simp [CMState.addTracked, CMState.tracked, List.mem_insert_iff]

/-- Helper: a "page" Created event whose url is empty or "unknown" for an
id not yet tracked adds the id and emits nothing. -/
theorem new_tab_event_unresolved_eq
    (ct : String → String → String) (gf : String → String)
    (info : TargetInfo) (p : ProfileId) (st : CMState)
    (htype : info.type = "page")
    (hnot : ((st.tracked p).contains info.targetId) = false)
    (hurl : info.url = "" ∨ info.url = "unknown") :
    handle_new_tab_event ct gf info p st = (st.addTracked p info.targetId, []) := by
  have hnot' : info.targetId ∉ st.tracked p := by simpa using hnot
  unfold handle_new_tab_event
  rcases hurl with h | h <;> simp [htype, hnot', h]

/-- C1: the claim asserts that a Created event for a "page" target with
an empty url is ignored "without adding the id to the profile's
TrackedTabSet". The code adds the id to the set before checking the url:
at the concrete event below no message is emitted, yet the id lands in
the tracked set, refuting the claim. -/
theorem C1_counterexample :
    (handle_new_tab_event idClean noFavicon ⟨"tab1", "t", "", "page"⟩
        ProfileId.personal CMState.empty).2 = [] ∧
      "tab1" ∈ ((handle_new_tab_event idClean noFavicon ⟨"tab1", "t", "", "page"⟩
        ProfileId.personal CMState.empty).1.tracked ProfileId.personal) := by
  decide

/-- C1 (amended): a Created event for a "page" target with an empty or
unresolved url emits no message but does add the id to the profile's
TrackedTabSet; membership therefore does not imply the url was resolved
at the effective creation event. -/
theorem C1_empty_url_created_adds_silently
    (ct : String → String → String) (gf : String → String)
    (info : TargetInfo) (p : ProfileId) (st : CMState)
    (htype : info.type = "page")
    (hnot : ((st.tracked p).contains info.targetId) = false)
    (hurl : info.url = "" ∨ info.url = "unknown") :
    handle_new_tab_event ct gf info p st = (st.addTracked p info.targetId, []) :=
  new_tab_event_unresolved_eq ct gf info p st htype hnot hurl

/-- C1 witness: the amended theorem applied to a concrete unresolved
creation event on the empty tracker state. -/
theorem C1_witness :
    handle_new_tab_event idClean noFavicon ⟨"A", "t", "unknown", "page"⟩
        ProfileId.personal CMState.empty
      = (CMState.empty.addTracked ProfileId.personal "A", []) :=
  C1_empty_url_created_adds_silently idClean noFavicon _ _ _ rfl (by decide)
    (Or.inr rfl)

/-- C4: the claim asserts that after a "page" Created event with empty
url, a later InfoChanged with a resolved url takes the fallback path and
emits "new_tab". In the code the Created handler already added the id,
so the InfoChanged handler emits "tab_info_change" instead, as this
concrete two-event run shows. -/
theorem C4_counterexample :
    ((handle_tab_info_changed_event idClean noFavicon
        ⟨"A", "t", "https://example.com", "page"⟩ ProfileId.personal
        (handle_new_tab_event idClean noFavicon ⟨"A", "t", "", "page"⟩
          ProfileId.personal CMState.empty).1).2.map (fun m => m.msgType))
      = ["tab_info_change"] := by
  decide

/-- C4 (amended): after a "page" Created event with empty/unresolved url
for an untracked id, a later "page" InfoChanged for the same id with a
resolved, non-excluded url emits exactly one TabUpdated
("tab_info_change") message and leaves the tracked set unchanged; the
late-discovered-creation fallback is not taken because the Created
handler already added the id to the set. -/
theorem C4_resolved_update_after_silent_creation
    (ct : String → String → String) (gf : String → String)
    (info1 info2 : TargetInfo) (p : ProfileId) (st : CMState)
    (h1t : info1.type = "page")
    (h1u : info1.url = "" ∨ info1.url = "unknown")
    (hnot : ((st.tracked p).contains info1.targetId) = false)
    (hsame : info2.targetId = info1.targetId)
    (h2t : info2.type = "page")
    (h2a : info2.url ≠ "") (h2b : info2.url ≠ "unknown")
    (h2c : info2.url ≠ "edge://downloads/hub") :
    (handle_new_tab_event ct gf info1 p st).2 = [] ∧
      handle_tab_info_changed_event ct gf info2 p
          (handle_new_tab_event ct gf info1 p st).1
        = ((handle_new_tab_event ct gf info1 p st).1,
            [broadcast_event_to_plugins "tab_info_change" info2.targetId
              (ct info2.title info2.url) (gf info2.url) p.name]) := by
  have hstep := new_tab_event_unresolved_eq ct gf info1 p st h1t hnot h1u
  rw [hstep]
  refine ⟨rfl, ?_⟩
  unfold handle_tab_info_changed_event
  simp [h2t, h2a, h2b, h2c, hsame, mem_tracked_addTracked_self]

/-- C4 witness: the amended theorem applied to a concrete silent
creation followed by a resolved update for the same id. -/
theorem C4_witness :
    (handle_new_tab_event idClean noFavicon ⟨"A", "t", "", "page"⟩
        ProfileId.personal CMState.empty).2 = [] ∧
      handle_tab_info_changed_event idClean noFavicon
          ⟨"A", "t2", "https://example.com", "page"⟩ ProfileId.personal
          (handle_new_tab_event idClean noFavicon ⟨"A", "t", "", "page"⟩
            ProfileId.personal CMState.empty).1
        = ((handle_new_tab_event idClean noFavicon ⟨"A", "t", "", "page"⟩
            ProfileId.personal CMState.empty).1,
            [broadcast_event_to_plugins "tab_info_change" "A"
              (idClean "t2" "https://example.com")
              (noFavicon "https://example.com") ProfileId.personal.name]) :=
  C4_resolved_update_after_silent_creation idClean noFavicon
    ⟨"A", "t", "", "page"⟩ ⟨"A", "t2", "https://example.com", "page"⟩
    ProfileId.personal CMState.empty rfl (Or.inl rfl) (by decide) rfl rfl
    (by decide) (by decide) (by decide)

/-- C7: replaying a Created event for a "page" target whose id is
already in the profile's TrackedTabSet emits zero messages and leaves
the tracker state unchanged. -/
theorem C7_created_replay_idempotent
    (ct : String → String → String) (gf : String → String)
    (info : TargetInfo) (p : ProfileId) (st : CMState)
    (_htype : info.type = "page")
    (hmem : ((st.tracked p).contains info.targetId) = true) :
    handle_new_tab_event ct gf info p st = (st, []) := by
  have hmem' : info.targetId ∈ st.tracked p := by simpa using hmem
  unfold handle_new_tab_event
  simp [hmem']

/-- C7 witness: the theorem applied to a replayed creation of a tab
already in the personal tracked set. -/
theorem C7_witness :
    handle_new_tab_event idClean noFavicon
        ⟨"A", "t", "https://example.com", "page"⟩ ProfileId.personal ⟨["A"], []⟩
      = (⟨["A"], []⟩, []) :=
  C7_created_replay_idempotent idClean noFavicon
    ⟨"A", "t", "https://example.com", "page"⟩ ProfileId.personal ⟨["A"], []⟩
    rfl (by decide)

/-- C8: a Destroyed event for an id not currently in the profile's
TrackedTabSet emits nothing and leaves the whole system state — both
profiles' tracked sets and the subscriber set — unchanged. -/
theorem C8_destroy_unknown_id_noop (sendFails : Subscriber → Bool)
    (tid : String) (p : ProfileId) (sys : SystemState)
    (hnot : ((sys.cm.tracked p).contains tid) = false) :
    system_handle_tab_closed sendFails (some tid) p sys = (sys, []) := by
  have hnot' : tid ∉ sys.cm.tracked p := by simpa using hnot
  unfold system_handle_tab_closed handle_tab_closed_event
  simp [hnot']

/-- Helper: in a duplicate-free list containing `f`, filtering for
elements equal to `f` yields exactly `[f]`. -/
theorem filter_beq_self_of_nodup (l : List Subscriber) (f : Subscriber)
    (hnd : l.Nodup) (hf : f ∈ l) : l.filter (fun s => s == f) = [f] := by
  induction l with
  | nil => cases hf
  | cons a t ih =>
    have hat : a ∉ t := (List.nodup_cons.mp hnd).1
    have hndt : t.Nodup := (List.nodup_cons.mp hnd).2
    rcases List.mem_cons.mp hf with h | h
    · rw [← h] at hat ⊢
      have hfil : t.filter (fun s => s == f) = [] := by
        refine List.filter_eq_nil_iff.mpr ?_
        intro x hx
        simp only [beq_iff_eq]
        intro hxf
        exact hat (hxf ▸ hx)
      simp [List.filter_cons, hfil]
    · have haf : a ≠ f := fun hh => hat (hh ▸ h)
      simp [List.filter_cons, haf, ih hndt h]

/-- C2: broadcasting one domain event while exactly one subscriber's
send fails issues exactly one send per connected subscriber (so the
failed send is attempted once and never retried), delivers the message
to every other subscriber, and the subsequent handler cleanup removes
only the failed subscriber from the live set. -/
theorem C2_send_failure_isolated (subs : List Subscriber)
    (sendFails : Subscriber → Bool) (event : WireMessage) (f : Subscriber)
    (hnd : subs.Nodup) (hf : f ∈ subs)
    (honly : ∀ s, sendFails s = true ↔ s = f) :
    ((broadcast_round subs sendFails event).1.attempts.map (fun a => a.sub) = subs) ∧
      (∀ s ∈ subs, s ≠ f →
        (⟨s, true⟩ : SendAttempt) ∈ (broadcast_round subs sendFails event).1.attempts) ∧
      ((broadcast_round subs sendFails event).1.attempts.filter
          (fun a => a.sub == f) = [⟨f, false⟩]) ∧
      ((broadcast_round subs sendFails event).2 = subs.erase f) := by
  have hne : subs.isEmpty = false := by
    cases subs with
    | nil => cases hf
    | cons a t => rfl
  have hffail : sendFails f = true := (honly f).mpr rfl
  have hok : ∀ s, s ≠ f → sendFails s = false := by
    intro s hs
    cases hsf : sendFails s with
    | false => rfl
    | true => exact absurd ((honly s).mp hsf) hs
  unfold broadcast_round broadcast_to_plugins remove_failed_subscribers
  rw [hne]
  simp only [Bool.false_eq_true, if_false]
  refine ⟨?_, ?_, ?_, ?_⟩
  · rw [List.map_map]
    exact List.map_id subs
  · intro s hs hsf
    have : (⟨s, !sendFails s⟩ : SendAttempt) ∈
        subs.map (fun s => (⟨s, !sendFails s⟩ : SendAttempt)) :=
      List.mem_map_of_mem _ hs
    rwa [hok s hsf] at this
  · rw [List.filter_map]
    have hpre : ((fun a : SendAttempt => a.sub == f) ∘
        (fun s => (⟨s, !sendFails s⟩ : SendAttempt))) = fun s => s == f := rfl
    rw [hpre, filter_beq_self_of_nodup subs f hnd hf]
    simp [hffail]
  · rw [hnd.erase_eq_filter f]
    refine List.filter_congr ?_
    intro x hx
    cases hxf : (x == f) with
    | false =>
      have hne2 : x ≠ f := by simpa using hxf
      simp [hok x hne2, hne2]
    | true =>
      have heq2 : x = f := by simpa using hxf
      rw [heq2]
      simp [hffail]

/-- C2 witness: the theorem applied to three connected subscribers of
which exactly subscriber 2 fails. -/
theorem C2_witness :
    ((broadcast_round [1, 2, 3] (fun s => s == 2)
        ⟨"new_tab", [⟨"A", "t", ""⟩], "personal"⟩).1.attempts.filter
        (fun a => a.sub == 2) = [⟨2, false⟩]) ∧
      ((broadcast_round [1, 2, 3] (fun s => s == 2)
        ⟨"new_tab", [⟨"A", "t", ""⟩], "personal"⟩).2
          = ([1, 2, 3] : List Subscriber).erase 2) :=
  have h := C2_send_failure_isolated [1, 2, 3] (fun s => s == 2)
    ⟨"new_tab", [⟨"A", "t", ""⟩], "personal"⟩ 2 (by decide) (by decide)
    (fun s => by simp)
  ⟨h.2.2.1, h.2.2.2⟩

/-- C10: broadcasting a domain event while no subscriber is connected is
a total no-op: the guard falls through, no message is serialised, no
send is attempted, and the resulting subscriber set is unchanged (the
broadcaster holds no queue, so the event is discarded). -/
theorem C10_empty_broadcast_noop (sendFails : Subscriber → Bool)
    (event : WireMessage) :
    broadcast_round [] sendFails event = (⟨none, []⟩, []) := rfl

/-- C9: get_debug_port returns the personal profile's port exactly when
its argument is the string "personal"; every other value, including an
absent profile field decoded as `none`, is routed to the work port. -/
theorem C9_get_debug_port (personalPort workPort : Nat) (profile : Option String)
    (hdistinct : personalPort ≠ workPort) :
    (get_debug_port personalPort workPort profile = personalPort ↔
        profile = some "personal") ∧
      (profile ≠ some "personal" →
        get_debug_port personalPort workPort profile = workPort) ∧
      get_debug_port personalPort workPort none = workPort := by
  unfold get_debug_port
  refine ⟨?_, ?_, rfl⟩
  · constructor
    · intro h
      by_cases hp : profile = some "personal"
      · exact hp
      · exfalso
        apply hdistinct
        rw [← h]
        simp [hp]
    · intro h
      simp [h]
  · intro h
    simp [h]

/-- C9 witness: the theorem applied to concrete distinct ports, with the
missing-profile, "work" and "personal" cases evaluated. -/
theorem C9_witness :
    get_debug_port 9222 9223 none = 9223 ∧
      get_debug_port 9222 9223 (some "work") = 9223 ∧
      get_debug_port 9222 9223 (some "personal") = 9222 :=
  ⟨(C9_get_debug_port 9222 9223 none (by decide)).2.2,
    (C9_get_debug_port 9222 9223 (some "work") (by decide)).2.1 (by decide),
    (C9_get_debug_port 9222 9223 (some "personal") (by decide)).1.mpr rfl⟩

/-- C5: a first_connection handshake sends exactly one snapshot message
per profile — two in total: a current_tabs message listing the page-kind
tabs of a reachable profile, or a no_tabs_open message with an empty
tabs list for an unreachable one — and the responses are computed only
from the live listings, independent of prior broadcast history. -/
theorem C5_first_connection_snapshots (ct : String → String → String)
    (gf : String → String)
    (targetsOf : String → Option (List BrowserTarget)) :
    (first_connection_responses ct gf targetsOf).length = 2 ∧
      ((first_connection_responses ct gf targetsOf).filter
        (fun m => m.profile == "personal")).length = 1 ∧
      ((first_connection_responses ct gf targetsOf).filter
        (fun m => m.profile == "work")).length = 1 ∧
      (∀ p, p ∈ (["personal", "work"] : List String) → targetsOf p = none →
        (⟨"no_tabs_open", [], p⟩ : WireMessage) ∈
          first_connection_responses ct gf targetsOf) ∧
      (∀ p, p ∈ (["personal", "work"] : List String) →
        ∀ ts, targetsOf p = some ts →
        (⟨"current_tabs", snapshot_entries ct gf (sorted_page_tabs ts), p⟩ :
            WireMessage) ∈ first_connection_responses ct gf targetsOf) := by
  refine ⟨rfl, ?_, ?_, ?_, ?_⟩
  · unfold first_connection_responses handle_first_connection
    cases h1 : targetsOf "personal" <;> cases h2 : targetsOf "work" <;>
      simp [get_tabs, h1, h2]
  · unfold first_connection_responses handle_first_connection
    cases h1 : targetsOf "personal" <;> cases h2 : targetsOf "work" <;>
      simp [get_tabs, h1, h2]
  · intro p hp hnone
    rcases List.mem_pair.mp hp with rfl | rfl <;>
      simp [first_connection_responses, handle_first_connection, get_tabs, hnone]
  · intro p hp ts hts
    rcases List.mem_pair.mp hp with rfl | rfl <;>
      simp [first_connection_responses, handle_first_connection, get_tabs,
        sorted_page_tabs, hts]

/-- C5 witness: the theorem applied to a reachable personal profile with
one page tab and an unreachable work profile. -/
theorem C5_witness :
    ((⟨"no_tabs_open", [], "work"⟩ : WireMessage) ∈
        first_connection_responses idClean noFavicon
          (fun p => if p == "personal"
            then some [⟨"A", "Example", "https://youtube.com/watch?v=1", "page"⟩]
            else none)) ∧
      ((⟨"current_tabs",
          snapshot_entries idClean noFavicon (sorted_page_tabs
            [⟨"A", "Example", "https://youtube.com/watch?v=1", "page"⟩]),
          "personal"⟩ : WireMessage) ∈
        first_connection_responses idClean noFavicon
          (fun p => if p == "personal"
            then some [⟨"A", "Example", "https://youtube.com/watch?v=1", "page"⟩]
            else none)) :=
  have h := C5_first_connection_snapshots idClean noFavicon
    (fun p => if p == "personal"
      then some [⟨"A", "Example", "https://youtube.com/watch?v=1", "page"⟩]
      else none)
  ⟨h.2.2.2.1 "work" (by decide) (by decide),
    h.2.2.2.2 "personal" (by decide) _ (by decide)⟩

/-- C3: the claim states the one-shot server always sends the
acknowledgment bytes and closes regardless of command outcome. The code
does so for malformed JSON and for invalid urls, but a well-formed
payload with no url field makes `handle_command` raise
(`None.startswith`), and the acknowledgment — placed after
`handle_command` inside the same try block — is skipped; only the close
happens. -/
theorem C3_missing_url_skips_ack :
    handle_client_connection (some (ParsedJson.payload none (some "work")))
        = ⟨false, true⟩ ∧
      handle_client_connection (some ParsedJson.malformed) = ⟨true, true⟩ ∧
      handle_client_connection
          (some (ParsedJson.payload (some "ftp://x") (some "work")))
        = ⟨true, true⟩ ∧
      handle_client_connection
          (some (ParsedJson.payload (some "https://x") none))
        = ⟨true, true⟩ := by
  decide

theorem chars_le_total (as bs : List Char) :
    (chars_le as bs || chars_le bs as) = true := by
  unfold chars_le
  rcases le_total as bs with h | h <;> simp [h]

theorem chars_le_trans (as bs cs : List Char) (h1 : chars_le as bs = true)
    (h2 : chars_le bs cs = true) : chars_le as cs = true := by
  unfold chars_le at h1 h2 ⊢
  rw [decide_eq_true_eq] at h1 h2 ⊢
  exact le_trans h1 h2

theorem key_le_total (a b : Nat × Nat × String) : (key_le a b || key_le b a) = true := by
  unfold key_le
  by_cases h1 : a.1 = b.1
  · rw [if_pos h1, if_pos h1.symm]
    by_cases h2 : a.2.1 = b.2.1
    · rw [if_pos h2, if_pos h2.symm]
      exact chars_le_total _ _
    · rw [if_neg h2, if_neg (Ne.symm h2)]
      simp only [Bool.or_eq_true, decide_eq_true_eq]
      omega
  · rw [if_neg h1, if_neg (Ne.symm h1)]
    simp only [Bool.or_eq_true, decide_eq_true_eq]
    omega

theorem key_le_trans (a b c : Nat × Nat × String)
    (hab : key_le a b = true) (hbc : key_le b c = true) : key_le a c = true := by
  unfold key_le at hab hbc ⊢
  by_cases h1 : a.1 = b.1
  · rw [if_pos h1] at hab
    by_cases h2 : b.1 = c.1
    · rw [if_pos h2] at hbc
      rw [if_pos (h1.trans h2)]
      by_cases h3 : a.2.1 = b.2.1
      · rw [if_pos h3] at hab
        by_cases h4 : b.2.1 = c.2.1
        · rw [if_pos h4] at hbc
          rw [if_pos (h3.trans h4)]
          exact chars_le_trans _ _ _ hab hbc
        · rw [if_neg h4, decide_eq_true_eq] at hbc
          rw [if_neg (by omega), decide_eq_true_eq]
          omega
      · rw [if_neg h3, decide_eq_true_eq] at hab
        by_cases h4 : b.2.1 = c.2.1
        · rw [if_neg (by omega), decide_eq_true_eq]
          omega
        · rw [if_neg h4, decide_eq_true_eq] at hbc
          rw [if_neg (by omega), decide_eq_true_eq]
          omega
    · rw [if_neg h2, decide_eq_true_eq] at hbc
      rw [if_neg (by omega), decide_eq_true_eq]
      omega
  · rw [if_neg h1, decide_eq_true_eq] at hab
    by_cases h2 : b.1 = c.1
    · rw [if_neg (by omega), decide_eq_true_eq]
      omega
    · rw [if_neg h2, decide_eq_true_eq] at hbc
      rw [if_neg (by omega), decide_eq_true_eq]
      omega

theorem tab_le_trans (a b c : BrowserTarget) (hab : tab_le a b = true)
    (hbc : tab_le b c = true) : tab_le a c = true :=
  key_le_trans _ _ _ hab hbc

theorem tab_le_total (a b : BrowserTarget) : (tab_le a b || tab_le b a) = true :=
  key_le_total _ _

theorem find?_first {α : Type} (p : α → Bool) :
    ∀ (l : List α) (a : α), l.find? p = some a →
      ∃ pre post, l = pre ++ a :: post ∧ (∀ x ∈ pre, p x = false) ∧
        p a = true := by
  intro l
  induction l with
  | nil => intro a h; simp [List.find?] at h
  | cons b t ih =>
    intro a h
    by_cases hb : p b = true
    · rw [List.find?_cons_of_pos t hb] at h
      obtain rfl : b = a := Option.some.inj h
      exact ⟨[], t, rfl, ⟨fun x hx => absurd hx (List.not_mem_nil x), hb⟩⟩
    · rw [List.find?_cons_of_neg t hb] at h
      obtain ⟨pre, post, heq, hpre, hpa⟩ := ih a h
      refine ⟨b :: pre, post, by rw [heq]; rfl, ?_, hpa⟩
      intro x hx
      rcases List.mem_cons.mp hx with rfl | hx
      · exact Bool.not_eq_true _ ▸ Bool.of_not_eq_true hb
      · exact hpre x hx

/-- C6: with the browser reachable, the listing is the page-kind targets
sorted by the priority key (priority-list domains first in list order,
then by domain, all other tabs after by domain name — the order `tab_le`
compares); when some listed tab's normalized url contains the normalized
target as a substring, the first such tab in that order is activated
after the window is foregrounded and no new tab is opened; with no match
the target url is opened in a new tab. -/
theorem C6_focus_or_open (desired profile : String)
    (raw after : List BrowserTarget) :
    (sorted_page_tabs raw).Pairwise (fun a b => tab_le a b = true) ∧
      (∀ t, (sorted_page_tabs raw).find? (tab_matches desired) = some t →
        focus_or_open_tab desired profile (some raw) (some after)
            = [BrowserAction.focusWindow profile,
               BrowserAction.activateTab t.id] ∧
          tab_matches desired t = true ∧
          (∃ pre post, sorted_page_tabs raw = pre ++ t :: post ∧
            ∀ x ∈ pre, tab_matches desired x = false) ∧
          (∀ u q, BrowserAction.openNewTab u q ∉
            focus_or_open_tab desired profile (some raw) (some after))) ∧
      ((sorted_page_tabs raw).find? (tab_matches desired) = none →
        focus_or_open_tab desired profile (some raw) (some after)
          = [BrowserAction.openNewTab desired profile]) := by
  refine ⟨List.sorted_mergeSort tab_le_trans tab_le_total _, ?_, ?_⟩
  · intro t ht
    have hfo : focus_or_open_tab desired profile (some raw) (some after)
        = [BrowserAction.focusWindow profile, BrowserAction.activateTab t.id] := by
      show focus_or_open_core desired profile (sorted_page_tabs raw) = _
      unfold focus_or_open_core
      rw [ht]
    obtain ⟨pre, post, heq, hpre, hpa⟩ := find?_first (tab_matches desired) _ t ht
    refine ⟨hfo, hpa, ⟨pre, post, heq, hpre⟩, ?_⟩
    intro u q hmem
    rw [hfo] at hmem
    simp at hmem
  · intro hn
    show focus_or_open_core desired profile (sorted_page_tabs raw) = _
    unfold focus_or_open_core
    rw [hn]

/-- C6 witness: the theorem applied to the spec's scenario — target url
"https://github.com/foo/bar" against a listing holding the tab
"https://github.com/foo/bar/issues" (match: focus and activate, no new
tab) — and to a non-matching target (new tab). -/
theorem C6_witness :
    (focus_or_open_tab "https://github.com/foo/bar" "work"
        (some [⟨"T1", "t", "https://github.com/foo/bar/issues", "page"⟩])
        (some [])
      = [BrowserAction.focusWindow "work", BrowserAction.activateTab "T1"]) ∧
      (focus_or_open_tab "https://nosuch.example" "work"
        (some [⟨"T1", "t", "https://github.com/foo/bar/issues", "page"⟩])
        (some [])
      = [BrowserAction.openNewTab "https://nosuch.example" "work"]) := by
  have hs : sorted_page_tabs
      [(⟨"T1", "t", "https://github.com/foo/bar/issues", "page"⟩ : BrowserTarget)]
      = [⟨"T1", "t", "https://github.com/foo/bar/issues", "page"⟩] := by
    simp [sorted_page_tabs, List.mergeSort]
  have hfind : (sorted_page_tabs
      [(⟨"T1", "t", "https://github.com/foo/bar/issues", "page"⟩ : BrowserTarget)]).find?
        (tab_matches "https://github.com/foo/bar")
      = some ⟨"T1", "t", "https://github.com/foo/bar/issues", "page"⟩ := by
    rw [hs]
    decide
  have hnone : (sorted_page_tabs
      [(⟨"T1", "t", "https://github.com/foo/bar/issues", "page"⟩ : BrowserTarget)]).find?
        (tab_matches "https://nosuch.example") = none := by
    rw [hs]
    decide
  exact ⟨((C6_focus_or_open "https://github.com/foo/bar" "work"
      [⟨"T1", "t", "https://github.com/foo/bar/issues", "page"⟩] []).2.1
      ⟨"T1", "t", "https://github.com/foo/bar/issues", "page"⟩ hfind).1,
    (C6_focus_or_open "https://nosuch.example" "work"
      [⟨"T1", "t", "https://github.com/foo/bar/issues", "page"⟩] []).2.2 hnone⟩

/-- C8 witness: the theorem applied to a destroy event for an untracked
id against a system with one tracked tab and one subscriber. -/
theorem C8_witness :
    system_handle_tab_closed (fun _ => false) (some "B") ProfileId.personal
        ⟨⟨["A"], []⟩, [1]⟩
      = (⟨⟨["A"], []⟩, [1]⟩, []) :=
  C8_destroy_unknown_id_noop (fun _ => false) "B" ProfileId.personal
    ⟨⟨["A"], []⟩, [1]⟩ (by decide)

end TabWizard
